import Mathlib

/-!
Shallow embedding of the payment-holds service (`src/app.py`) and the token
generator script (`src/scripts/jwt_gen.py`).

Modelling choices:
* UUID values (`client_id`, `hold_id`) are modelled as `Nat`.
* Timestamps (`datetime`) are modelled as `Int`; `Option Int` for nullable
  timestamp columns.
* The relational store is a `DB` record: the `client` table as a list of
  client ids and the `payment_hold` table as a list of `Hold` rows in
  insertion order.
* Each HTTP endpoint becomes a function from the request data and the
  database state to `Except ApiError result`, returning the new database
  state on mutation.  `ApiError` constructors correspond to the HTTP status
  codes raised by app.py (401/403/422/404/409) plus `serverError` for an
  unhandled exception (a constraint violation escaping the handler).
* The external `jwt.decode` call is abstracted by its outcome, passed to
  `get_principal` as `Option (Except JwtFailure JwtClaims)` (`none` for a
  missing bearer token, `.error` for any `PyJWTError`).
-/

namespace BlockingPayments

/-- Hold `type` column: `Literal["FRAUD_SUSPECT", "INCORRECT_BENEFICIARY_DETAILS"]`. -/
inductive HoldType where
  | FRAUD_SUSPECT
  | INCORRECT_BENEFICIARY_DETAILS
deriving DecidableEq, Repr

/-- Hold `status` column: `Literal["ACTIVE", "RELEASED", "EXPIRED"]`. -/
inductive HoldStatus where
  | ACTIVE
  | RELEASED
  | EXPIRED
deriving DecidableEq, Repr

/-- A row of the `payment_hold` table / the `HoldModel` response schema of app.py. -/
structure Hold where
  holdId : Nat
  clientId : Nat
  type : HoldType
  status : HoldStatus
  comment : Option String
  source : Option String
  createdAt : Int
  createdBy : String
  expiresAt : Option Int
  releasedAt : Option Int
  releasedBy : Option String
  releaseReason : Option String
  idempotencyKey : String
deriving DecidableEq, Repr

/-- The relational store: the `client` table (ids only; the service only ever
checks existence) and the `payment_hold` table in insertion order. -/
structure DB where
  clients : List Nat
  holds : List Hold
deriving DecidableEq, Repr

/-- `Principal` model of app.py: `sub : str`, `roles : list[str]`. -/
structure Principal where
  sub : String
  roles : List String
deriving DecidableEq, Repr

/-- `CreateHoldBody` model of app.py. -/
structure CreateHoldBody where
  type : HoldType
  comment : Option String
  source : Option String
  expiresAt : Option Int
deriving DecidableEq, Repr

/-- `ReleaseBody` model of app.py: both fields optional. -/
structure ReleaseBody where
  reason : Option String
  comment : Option String
deriving DecidableEq, Repr

/-- The error taxonomy of app.py, by HTTP status: 401, 403, 422, 404, 409,
and a generic 5xx for exceptions no handler catches. -/
inductive ApiError where
  | unauthorized
  | forbidden
  | validation
  | notFound
  | conflict
  | serverError
deriving DecidableEq, Repr

/-- The abstract payload of a successfully decoded JWT: app.py reads the
claims `sub` and `roles`, each possibly absent. -/
structure JwtClaims where
  sub : Option String
  roles : Option (List String)
deriving DecidableEq, Repr

/-- The failure modes of `jwt.decode` (all raised as `jwt.PyJWTError`):
malformed token, bad signature, expired token. -/
inductive JwtFailure where
  | structural
  | badSignature
  | expired
deriving DecidableEq, Repr

/-- app.py lines 30-37, `get_principal`: a missing bearer token or any
`jwt.PyJWTError` from `jwt.decode` yields 401; on success the principal is
built with `payload.get("sub", "unknown")` and `payload.get("roles", [])`.
The argument is the outcome of the external `jwt.decode` call: `none` when no
bearer token was presented. -/
def get_principal (token : Option (Except JwtFailure JwtClaims)) :
    Except ApiError Principal :=
  match token with
  | none => .error .unauthorized
  | some (.error _) => .error .unauthorized
  | some (.ok payload) =>
      .ok { sub := payload.sub.getD "unknown", roles := payload.roles.getD [] }

/-- app.py lines 39-44, `require_roles`: succeeds when some required role is
among the principal's roles (`any(r in principal.roles for r in required)`),
otherwise raises 403. -/
def require_roles (required : List String) (principal : Principal) :
    Except ApiError Principal :=
  if required.any (fun r => principal.roles.contains r) then .ok principal
  else .error .forbidden

/-- app.py line 96-97: `SELECT 1 FROM client WHERE client_id = :cid`. -/
def clientExists (db : DB) (cid : Nat) : Bool :=
  db.clients.contains cid

/-- app.py lines 101-102: `SELECT * FROM payment_hold WHERE idempotency_key
= :ik LIMIT 1`. -/
def findByIdempotencyKey (db : DB) (ik : String) : Option Hold :=
  db.holds.find? (fun h => h.idempotencyKey == ik)

/-- app.py line 93: `body.expiresAt and body.expiresAt <= _now()` (a present
datetime is always truthy in Python). -/
def expiresAtInvalid (body : CreateHoldBody) (now : Int) : Bool :=
  match body.expiresAt with
  | some t => decide (t ≤ now)
  | none => false

/-- The row built by the INSERT of app.py lines 106-123: `status='ACTIVE'`,
`created_by = principal.sub`, release columns left NULL; `newHoldId` stands
for the database-generated `hold_id` and `now` for the database-defaulted
`created_at`. -/
def insertedHold (clientId : Nat) (body : CreateHoldBody)
    (idempotency_key : String) (principal : Principal) (now : Int)
    (newHoldId : Nat) : Hold :=
  { holdId := newHoldId
    clientId := clientId
    type := body.type
    status := .ACTIVE
    comment := body.comment
    source := body.source
    createdAt := now
    createdBy := principal.sub
    expiresAt := body.expiresAt
    releasedAt := none
    releasedBy := none
    releaseReason := none
    idempotencyKey := idempotency_key }

/-- app.py lines 86-125, `create_hold`.  `dbRead` is the database state seen
by the SELECTs (client existence, idempotency lookup); `dbIns` is the state
the INSERT executes against — a concurrent commit may land in between, so a
sequential execution is the special case `dbIns = dbRead`.  The INSERT path
models the unique constraint on `idempotency_key`: app.py wraps it in no
exception handler, so a uniqueness violation escapes as a generic server
error.  `newHoldId` stands for the database-generated `hold_id`, and the
database-defaulted `created_at` is `now`. -/
def create_hold (dbRead dbIns : DB) (clientId : Nat) (body : CreateHoldBody)
    (idempotency_key : String) (principal : Principal) (now : Int)
    (newHoldId : Nat) : Except ApiError (Hold × DB) :=
  if expiresAtInvalid body now then .error .validation
  else if !clientExists dbRead clientId then .error .validation
  else
    match findByIdempotencyKey dbRead idempotency_key with
    | some row => .ok (row, dbIns)
    | none =>
        if dbIns.holds.any (fun h => h.idempotencyKey == idempotency_key) then
          .error .serverError
        else
          .ok (insertedHold clientId body idempotency_key principal now newHoldId,
               ⟨dbIns.clients,
                dbIns.holds ++
                  [insertedHold clientId body idempotency_key principal now newHoldId]⟩)

/-- The `status` query parameter of the list endpoint:
`Literal["ACTIVE", "RELEASED", "ALL"]`. -/
inductive StatusFilter where
  | ACTIVE
  | RELEASED
  | ALL
deriving DecidableEq, Repr

/-- The WHERE clause of app.py lines 134-143: no status condition for `ALL`,
`status = :st` otherwise. -/
def statusMatches (stf : StatusFilter) (h : Hold) : Bool :=
  match stf with
  | .ALL => true
  | .ACTIVE => h.status == .ACTIVE
  | .RELEASED => h.status == .RELEASED

/-- `ORDER BY created_at DESC`: row `a` may precede row `b` when
`b.createdAt ≤ a.createdAt`. -/
def createdDesc (a b : Hold) : Prop :=
  b.createdAt ≤ a.createdAt

instance : DecidableRel createdDesc := fun a b => by
  unfold createdDesc; infer_instance

instance : IsTotal Hold createdDesc :=
  ⟨fun a b => (Int.le_total b.createdAt a.createdAt).imp id id⟩

instance : IsTrans Hold createdDesc :=
  ⟨fun _ _ _ hab hbc => le_trans hbc hab⟩

/-- app.py lines 127-145, `list_holds`: the client's rows, restricted to the
requested status unless the filter is `ALL`, ordered by `created_at`
descending. -/
def list_holds (db : DB) (clientId : Nat) (stf : StatusFilter) : List Hold :=
  List.insertionSort createdDesc
    (db.holds.filter (fun h => h.clientId == clientId && statusMatches stf h))

/-- The `kind` field of the check endpoint's response. -/
inductive CheckKind where
  | NONE
  | FRAUD
  | NON_FRAUD
deriving DecidableEq, Repr

/-- The response of the check endpoint: `{blocked, kind, activeHolds}`. -/
structure CheckResult where
  blocked : Bool
  kind : CheckKind
  activeHolds : List Hold
deriving DecidableEq, Repr

/-- app.py lines 147-161, `check_hold`: select the client's ACTIVE rows;
`blocked = len(rows) > 0`; `kind` is `FRAUD` when some row's type is
`FRAUD_SUSPECT`, `NON_FRAUD` when blocked without one, else `NONE`. -/
def check_hold (db : DB) (clientId : Nat) : CheckResult :=
  let rows := db.holds.filter
    (fun h => h.clientId == clientId && h.status == .ACTIVE)
  let blocked := decide (rows.length > 0)
  let kind :=
    if blocked then
      if rows.any (fun r => r.type == .FRAUD_SUSPECT) then CheckKind.FRAUD
      else CheckKind.NON_FRAUD
    else CheckKind.NONE
  ⟨blocked, kind, rows⟩

/-- app.py lines 166-170 and 183-187: `SELECT * FROM payment_hold WHERE
client_id = :cid AND hold_id = :hid` (first row). -/
def findOne (db : DB) (clientId holdId : Nat) : Option Hold :=
  db.holds.find? (fun h => h.clientId == clientId && h.holdId == holdId)

/-- app.py lines 163-173, `get_hold`: the row, or 404. -/
def get_hold (db : DB) (clientId holdId : Nat) : Except ApiError Hold :=
  match findOne db clientId holdId with
  | none => .error .notFound
  | some row => .ok row

/-- The SET clause of the release UPDATE (app.py lines 193-198), applied to
the rows matching `hold_id = :hid`:
`status='RELEASED', released_at=now(), released_by=:by, release_reason=:reason`. -/
def applyRelease (holdId : Nat) (principal : Principal) (reason : Option String)
    (now : Int) (h : Hold) : Hold :=
  if h.holdId == holdId then
    { h with status := .RELEASED, releasedAt := some now,
             releasedBy := some principal.sub, releaseReason := reason }
  else h

/-- app.py lines 175-205, `release_hold`: 404 when no row matches the client
and hold ids, 409 when the row's status is not ACTIVE, otherwise the UPDATE
runs and the first returned row is the result.  The release `reason` is
`body.reason if body else None`; `body.comment` is never read. -/
def release_hold (db : DB) (clientId holdId : Nat) (body : Option ReleaseBody)
    (principal : Principal) (now : Int) : Except ApiError (Hold × DB) :=
  match findOne db clientId holdId with
  | none => .error .notFound
  | some row =>
      if row.status ≠ .ACTIVE then .error .conflict
      else
        match (db.holds.map
            (applyRelease holdId principal (body.bind ReleaseBody.reason) now)).find?
            (fun h => h.holdId == holdId) with
        | some updated =>
            .ok (updated,
              ⟨db.clients,
               db.holds.map
                 (applyRelease holdId principal (body.bind ReleaseBody.reason) now)⟩)
        | none => .error .serverError

/-- The role gate of the create endpoint (app.py line 91):
`require_roles("ops.block:create")` composed with the handler. -/
def create_hold_authed (principal : Principal) (dbRead dbIns : DB)
    (clientId : Nat) (body : CreateHoldBody) (idempotency_key : String)
    (now : Int) (newHoldId : Nat) : Except ApiError (Hold × DB) :=
  (require_roles ["ops.block:create"] principal).bind fun p =>
    create_hold dbRead dbIns clientId body idempotency_key p now newHoldId

/-- The role gate of the list endpoint (app.py line 131):
`require_roles("ops.block:read")`. -/
def list_holds_authed (principal : Principal) (db : DB) (clientId : Nat)
    (stf : StatusFilter) : Except ApiError (List Hold) :=
  (require_roles ["ops.block:read"] principal).bind fun _ =>
    .ok (list_holds db clientId stf)

/-- The role gate of the check endpoint (app.py line 148):
`require_roles("ops.block:read")`. -/
def check_hold_authed (principal : Principal) (db : DB) (clientId : Nat) :
    Except ApiError CheckResult :=
  (require_roles ["ops.block:read"] principal).bind fun _ =>
    .ok (check_hold db clientId)

/-- The role gate of the get endpoint (app.py line 164):
`require_roles("ops.block:read")`. -/
def get_hold_authed (principal : Principal) (db : DB) (clientId holdId : Nat) :
    Except ApiError Hold :=
  (require_roles ["ops.block:read"] principal).bind fun _ =>
    get_hold db clientId holdId

/-- The role gate of the release endpoint (app.py line 180):
`require_roles("ops.block:release")`. -/
def release_hold_authed (principal : Principal) (db : DB)
    (clientId holdId : Nat) (body : Option ReleaseBody) (now : Int) :
    Except ApiError (Hold × DB) :=
  (require_roles ["ops.block:release"] principal).bind fun p =>
    release_hold db clientId holdId body p now

/-- Database states reachable through the public mutating operations,
starting from any client table and an empty `payment_hold` table.
Sequential executions (`dbIns = dbRead`). -/
inductive Reachable : DB → Prop where
  | init (clients : List Nat) : Reachable ⟨clients, []⟩
  | create (db : DB) (clientId : Nat) (body : CreateHoldBody)
      (idempotency_key : String) (principal : Principal) (now : Int)
      (newHoldId : Nat) (h : Hold) (db' : DB) :
      Reachable db →
      create_hold db db clientId body idempotency_key principal now newHoldId
        = .ok (h, db') →
      Reachable db'
  | release (db : DB) (clientId holdId : Nat) (body : Option ReleaseBody)
      (principal : Principal) (now : Int) (h : Hold) (db' : DB) :
      Reachable db →
      release_hold db clientId holdId body principal now = .ok (h, db') →
      Reachable db'

/-! Concrete fixtures used by the witness and counterexample theorems. -/

/-- A principal holding all three capabilities (as minted by
`scripts/jwt_gen.py` with its default role list). -/
def pOps : Principal :=
  ⟨"user:ops1", ["ops.block:read", "ops.block:create", "ops.block:release"]⟩

/-- A create body with no optional fields. -/
def sampleBody : CreateHoldBody := ⟨.FRAUD_SUSPECT, none, none, none⟩

/-- The hold produced by creating `sampleBody` for client 1 with key "K" at
time 0, hold id 10, as `pOps`. -/
def sampleHold : Hold :=
  { holdId := 10
    clientId := 1
    type := .FRAUD_SUSPECT
    status := .ACTIVE
    comment := none
    source := none
    createdAt := 0
    createdBy := "user:ops1"
    expiresAt := none
    releasedAt := none
    releasedBy := none
    releaseReason := none
    idempotencyKey := "K" }

/-- A database with two clients and the single hold `sampleHold`. -/
def sampleDB : DB := ⟨[1, 2], [sampleHold]⟩

/-- A create body carrying an `expiresAt` in the past relative to time 5. -/
def pastBody : CreateHoldBody := ⟨.FRAUD_SUSPECT, none, none, some 0⟩

/-- A create body differing from `sampleBody` in every parameter, still valid
at time 5. -/
def replayBody : CreateHoldBody :=
  ⟨.INCORRECT_BENEFICIARY_DETAILS, some "other", some "web", some 10⟩

/-- The database state the losing writer of a duplicate-key race read before
its INSERT: no hold with key "K" yet. -/
def raceReadDB : DB := ⟨[1, 2], []⟩

/-- `sampleHold` after a release with no body at time 7 by `pOps`. -/
def releasedHold : Hold :=
  { sampleHold with
      status := .RELEASED
      releasedAt := some 7
      releasedBy := some "user:ops1"
      releaseReason := none }

/-- `sampleDB` after that release. -/
def releasedDB : DB := ⟨[1, 2], [releasedHold]⟩

/-! Helper lemmas shared by several claim theorems. -/

/-- Replaying an idempotency key that matches an existing row: a validated
create request returns that row and leaves the database unchanged. -/
lemma create_hold_replay (db : DB) (cid : Nat) (body : CreateHoldBody)
    (ik : String) (p : Principal) (now : Int) (nid : Nat) (h : Hold)
    (hval : expiresAtInvalid body now = false)
    (hcl : clientExists db cid = true)
    (hfind : findByIdempotencyKey db ik = some h) :
    create_hold db db cid body ik p now nid = .ok (h, db) := by
  unfold create_hold
  rw [hval, hcl, hfind]
  simp

/-- Claim C9: `get_principal` fails with Unauthorized when the bearer token
is missing or `jwt.decode` fails for any structural, signature, or expiry
reason; on success the principal takes the token's `sub` and `roles` claims,
defaulting `sub` to the sentinel "unknown" and `roles` to the empty list
when absent. -/
theorem claim9_token_verification :
    (get_principal none = .error .unauthorized) ∧
    (∀ e, get_principal (some (.error e)) = .error .unauthorized) ∧
    (∀ c, get_principal (some (.ok c)) =
      .ok ⟨c.sub.getD "unknown", c.roles.getD []⟩) ∧
    (∀ c, c.sub = none → get_principal (some (.ok c)) =
      .ok ⟨"unknown", c.roles.getD []⟩) ∧
    (∀ c, c.roles = none → get_principal (some (.ok c)) =
      .ok ⟨c.sub.getD "unknown", []⟩) := by
  refine ⟨rfl, fun e => rfl, fun c => rfl, fun c hc => ?_, fun c hc => ?_⟩
  · simp [get_principal, hc]
  · simp [get_principal, hc]

/-- Claim C9 witness: a decoded token with both claims absent yields the
default principal, and a missing token yields Unauthorized. -/
theorem claim9_witness :
    get_principal (some (.ok ⟨none, none⟩)) = .ok ⟨"unknown", []⟩ ∧
    get_principal none = .error .unauthorized :=
  ⟨(claim9_token_verification.2.2.2.1 ⟨none, none⟩ rfl).trans (by rfl),
   claim9_token_verification.1⟩

/-- Claim C1 counterexample: a create request whose idempotency key matches
the existing row but whose `expiresAt` lies in the past is rejected with
ValidationError instead of returning the existing hold — the expiry and
client checks of app.py lines 93-99 run before the idempotency lookup of
lines 101-104, so the claim fails as stated for requests that do not pass
validation. -/
theorem claim1_counterexample :
    findByIdempotencyKey sampleDB "K" = some sampleHold ∧
    create_hold sampleDB sampleDB 1 pastBody "K" pOps 5 99 =
      .error .validation :=
  ⟨rfl, rfl⟩

/-- Claim C1 (amended): for every create request that passes validation
(`expiresAt` absent or strictly in the future, `clientId` existing) and whose
idempotency key matches an existing hold row, `create_hold` returns that
existing hold unchanged and leaves the database unchanged (no new row),
regardless of the request's `type`, `comment`, `source`, or `expiresAt`. -/
theorem claim1_idempotent_replay (db : DB) (cid : Nat) (body : CreateHoldBody)
    (ik : String) (p : Principal) (now : Int) (nid : Nat) (h : Hold)
    (hval : expiresAtInvalid body now = false)
    (hcl : clientExists db cid = true)
    (hfind : findByIdempotencyKey db ik = some h) :
    create_hold db db cid body ik p now nid = .ok (h, db) :=
  create_hold_replay db cid body ik p now nid h hval hcl hfind

/-- Claim C1 witness: replaying key "K" with every request parameter changed
(type, comment, source, expiresAt) still returns `sampleHold` and leaves the
database unchanged. -/
theorem claim1_witness :
    create_hold sampleDB sampleDB 1 replayBody "K" pOps 5 99 =
      .ok (sampleHold, sampleDB) :=
  claim1_idempotent_replay sampleDB 1 replayBody "K" pOps 5 99 sampleHold
    rfl rfl rfl

/-- Claim C10: the idempotency lookup (app.py line 101) filters on
`idempotency_key` alone — no `client_id` condition — so a validated replay
under a different, existing client returns the original hold, whose
`clientId` differs from the one in the request path, and inserts no row. -/
theorem claim10_lookup_ignores_client (db : DB) (cid : Nat)
    (body : CreateHoldBody) (ik : String) (p : Principal) (now : Int)
    (nid : Nat) (h : Hold)
    (hval : expiresAtInvalid body now = false)
    (hcl : clientExists db cid = true)
    (hfind : findByIdempotencyKey db ik = some h)
    (hdiff : h.clientId ≠ cid) :
    create_hold db db cid body ik p now nid = .ok (h, db) ∧
    h.clientId ≠ cid :=
  ⟨create_hold_replay db cid body ik p now nid h hval hcl hfind, hdiff⟩

/-- Claim C10 witness: replaying key "K" under client 2 (which exists)
returns `sampleHold`, which belongs to client 1. -/
theorem claim10_witness :
    create_hold sampleDB sampleDB 2 sampleBody "K" pOps 5 99 =
      .ok (sampleHold, sampleDB) ∧
    sampleHold.clientId ≠ 2 :=
  claim10_lookup_ignores_client sampleDB 2 sampleBody "K" pOps 5 99 sampleHold
    rfl rfl rfl (by decide)

/-- Claim C2, evaluated at the failing input: the losing side of a
duplicate-key race (no row with key "K" at SELECT time, a committed row with
key "K" at INSERT time) hits the unique constraint, and since app.py lines
106-125 wrap the INSERT in no exception handler, the violation escapes as a
generic server error — the code neither re-reads the row by key nor returns
the existing hold. -/
theorem claim2_race_surfaces_error :
    findByIdempotencyKey raceReadDB "K" = none ∧
    findByIdempotencyKey sampleDB "K" = some sampleHold ∧
    create_hold raceReadDB sampleDB 1 sampleBody "K" pOps 5 99 =
      .error .serverError :=
  ⟨rfl, rfl, rfl⟩

/-- Claim C8: `require_roles` succeeds exactly when the principal's role set
intersects the required set, failing with Forbidden otherwise; each endpoint
gate requires its capability (`ops.block:create` for create, `ops.block:read`
for list/check/get, `ops.block:release` for release), and a principal lacking
it receives Forbidden for that operation regardless of the payload, while a
principal holding it reaches the underlying operation. -/
theorem claim8_role_gating :
    (∀ req p, require_roles req p = .ok p ↔ ∃ r ∈ req, r ∈ p.roles) ∧
    (∀ req p, require_roles req p = .error .forbidden ↔
      ¬ ∃ r ∈ req, r ∈ p.roles) ∧
    (∀ p dbR dbI cid body ik now nid, "ops.block:create" ∉ p.roles →
      create_hold_authed p dbR dbI cid body ik now nid = .error .forbidden) ∧
    (∀ p db cid stf, "ops.block:read" ∉ p.roles →
      list_holds_authed p db cid stf = .error .forbidden) ∧
    (∀ p db cid, "ops.block:read" ∉ p.roles →
      check_hold_authed p db cid = .error .forbidden) ∧
    (∀ p db cid hid, "ops.block:read" ∉ p.roles →
      get_hold_authed p db cid hid = .error .forbidden) ∧
    (∀ p db cid hid body now, "ops.block:release" ∉ p.roles →
      release_hold_authed p db cid hid body now = .error .forbidden) ∧
    (∀ p dbR dbI cid body ik now nid, "ops.block:create" ∈ p.roles →
      create_hold_authed p dbR dbI cid body ik now nid =
        create_hold dbR dbI cid body ik p now nid) ∧
    (∀ p db cid stf, "ops.block:read" ∈ p.roles →
      list_holds_authed p db cid stf = .ok (list_holds db cid stf)) ∧
    (∀ p db cid, "ops.block:read" ∈ p.roles →
      check_hold_authed p db cid = .ok (check_hold db cid)) ∧
    (∀ p db cid hid, "ops.block:read" ∈ p.roles →
      get_hold_authed p db cid hid = get_hold db cid hid) ∧
    (∀ p db cid hid body now, "ops.block:release" ∈ p.roles →
      release_hold_authed p db cid hid body now =
        release_hold db cid hid body p now) := by
  have hcont : ∀ (l : List String) (a : String), l.contains a = true ↔ a ∈ l :=
    fun _ _ => List.elem_iff
  have hany : ∀ (req : List String) (p : Principal),
      (req.any (fun r => p.roles.contains r) = true) ↔ ∃ r ∈ req, r ∈ p.roles := by
    intro req p
    simp only [List.any_eq_true, hcont]
  have hok : ∀ (req : List String) (p : Principal),
      require_roles req p = .ok p ↔ ∃ r ∈ req, r ∈ p.roles := by
    intro req p
    rw [← hany req p]
    unfold require_roles
    by_cases hc : req.any (fun r => p.roles.contains r) = true
    · simp [hc]
    · simp [hc]
  have herr : ∀ (req : List String) (p : Principal),
      require_roles req p = .error .forbidden ↔ ¬ ∃ r ∈ req, r ∈ p.roles := by
    intro req p
    rw [← hany req p]
    unfold require_roles
    by_cases hc : req.any (fun r => p.roles.contains r) = true
    · simp [hc]
    · simp [hc]
  have hsing : ∀ (s : String) (p : Principal), s ∈ p.roles →
      require_roles [s] p = .ok p := by
    intro s p hs
    exact (hok [s] p).2 ⟨s, by simp, hs⟩
  have hsingn : ∀ (s : String) (p : Principal), s ∉ p.roles →
      require_roles [s] p = .error .forbidden := by
    intro s p hs
    exact (herr [s] p).2 (by simpa using hs)
  refine ⟨hok, herr, ?_, ?_, ?_, ?_, ?_, ?_, ?_, ?_, ?_, ?_⟩
  · intro p dbR dbI cid body ik now nid hp
    unfold create_hold_authed
    rw [hsingn _ _ hp]
    rfl
  · intro p db cid stf hp
    unfold list_holds_authed
    rw [hsingn _ _ hp]
    rfl
  · intro p db cid hp
    unfold check_hold_authed
    rw [hsingn _ _ hp]
    rfl
  · intro p db cid hid hp
    unfold get_hold_authed
    rw [hsingn _ _ hp]
    rfl
  · intro p db cid hid body now hp
    unfold release_hold_authed
    rw [hsingn _ _ hp]
    rfl
  · intro p dbR dbI cid body ik now nid hp
    unfold create_hold_authed
    rw [hsing _ _ hp]
    rfl
  · intro p db cid stf hp
    unfold list_holds_authed
    rw [hsing _ _ hp]
    rfl
  · intro p db cid hp
    unfold check_hold_authed
    rw [hsing _ _ hp]
    rfl
  · intro p db cid hid hp
    unfold get_hold_authed
    rw [hsing _ _ hp]
    rfl
  · intro p db cid hid body now hp
    unfold release_hold_authed
    rw [hsing _ _ hp]
    rfl

/-- Claim C8 witness: a principal with only the read role is authorized for
the read gate, and receives Forbidden from the release endpoint on a
perfectly valid payload (an ACTIVE hold that exists). -/
theorem claim8_witness :
    require_roles ["ops.block:read"] ⟨"user:ro", ["ops.block:read"]⟩ =
      .ok ⟨"user:ro", ["ops.block:read"]⟩ ∧
    release_hold_authed ⟨"user:ro", ["ops.block:read"]⟩ sampleDB 1 10 none 7 =
      .error .forbidden :=
  ⟨(claim8_role_gating.1 ["ops.block:read"] ⟨"user:ro", ["ops.block:read"]⟩).2
      ⟨"ops.block:read", by simp, by simp⟩,
   claim8_role_gating.2.2.2.2.2.2.1 ⟨"user:ro", ["ops.block:read"]⟩ sampleDB
      1 10 none 7 (by simp)⟩

/-- Claim C6: a sequential `create_hold` fails with ValidationError exactly
when the request is invalid — `expiresAt` present and not strictly in the
future, or `clientId` not referencing an existing client; a request passing
both checks is never rejected with ValidationError. -/
theorem claim6_create_validation (db : DB) (cid : Nat) (body : CreateHoldBody)
    (ik : String) (p : Principal) (now : Int) (nid : Nat) :
    create_hold db db cid body ik p now nid = .error .validation ↔
      ((∃ t, body.expiresAt = some t ∧ t ≤ now) ∨ cid ∉ db.clients) := by
  have hexp : expiresAtInvalid body now = true ↔
      ∃ t, body.expiresAt = some t ∧ t ≤ now := by
    unfold expiresAtInvalid
    cases body.expiresAt <;> simp
  have hcl : clientExists db cid = true ↔ cid ∈ db.clients := List.elem_iff
  unfold create_hold
  by_cases h1 : expiresAtInvalid body now = true
  · simp [h1, hexp.1 h1]
  · rw [Bool.not_eq_true] at h1
    have hnexp : ¬ ∃ t, body.expiresAt = some t ∧ t ≤ now :=
      fun hx => absurd (hexp.2 hx) (by simp [h1])
    by_cases h2 : clientExists db cid = true
    · have hmem : cid ∈ db.clients := hcl.1 h2
      rcases hf : findByIdempotencyKey db ik with _ | row
      · by_cases h3 : (db.holds.any fun h => h.idempotencyKey == ik) = true
        · simp [h1, h2, hf, h3, hnexp, hmem]
        · rw [Bool.not_eq_true] at h3
          simp [h1, h2, hf, h3, hnexp, hmem]
      · simp [h1, h2, hf, hnexp, hmem]
    · rw [Bool.not_eq_true] at h2
      have hncl : cid ∉ db.clients := fun hm => absurd (hcl.2 hm) (by simp [h2])
      simp [h1, h2, hncl]

/-- Claim C6 witness: a past-dated `expiresAt` is rejected with
ValidationError, and so is an unknown client; both through the iff at
concrete inputs. -/
theorem claim6_witness :
    create_hold sampleDB sampleDB 1 pastBody "Kfresh" pOps 5 99 =
      .error .validation ∧
    create_hold sampleDB sampleDB 3 sampleBody "Kfresh" pOps 5 99 =
      .error .validation :=
  ⟨(claim6_create_validation sampleDB 1 pastBody "Kfresh" pOps 5 99).2
      (Or.inl ⟨0, rfl, by decide⟩),
   (claim6_create_validation sampleDB 3 sampleBody "Kfresh" pOps 5 99).2
      (Or.inr (by decide))⟩

/-- Claim C5: `check_hold` reports `blocked` exactly when the client has an
ACTIVE hold; `kind` is FRAUD exactly when some active hold has type
FRAUD_SUSPECT, NON_FRAUD exactly when active holds exist but none of them is
fraud-typed, NONE exactly when no active hold exists; and `activeHolds` is
exactly the client's active holds. -/
theorem claim5_check_hold (db : DB) (cid : Nat) :
    ((check_hold db cid).blocked = true ↔
      ∃ h ∈ db.holds, h.clientId = cid ∧ h.status = .ACTIVE) ∧
    ((check_hold db cid).kind = .FRAUD ↔
      ∃ h ∈ db.holds, h.clientId = cid ∧ h.status = .ACTIVE ∧
        h.type = .FRAUD_SUSPECT) ∧
    ((check_hold db cid).kind = .NON_FRAUD ↔
      ((∃ h ∈ db.holds, h.clientId = cid ∧ h.status = .ACTIVE) ∧
       ¬ ∃ h ∈ db.holds, h.clientId = cid ∧ h.status = .ACTIVE ∧
          h.type = .FRAUD_SUSPECT)) ∧
    ((check_hold db cid).kind = .NONE ↔
      ¬ ∃ h ∈ db.holds, h.clientId = cid ∧ h.status = .ACTIVE) ∧
    (∀ h, h ∈ (check_hold db cid).activeHolds ↔
      h ∈ db.holds ∧ h.clientId = cid ∧ h.status = .ACTIVE) := by
  have hrowsmem : ∀ h : Hold,
      h ∈ db.holds.filter
        (fun h => h.clientId == cid && h.status == HoldStatus.ACTIVE) ↔
      h ∈ db.holds ∧ h.clientId = cid ∧ h.status = .ACTIVE := by
    intro h
    simp [List.mem_filter]
  have hlen : (db.holds.filter
        (fun h => h.clientId == cid && h.status == HoldStatus.ACTIVE)).length
        > 0 ↔
      ∃ h ∈ db.holds, h.clientId = cid ∧ h.status = .ACTIVE := by
    rw [gt_iff_lt, List.length_pos_iff_exists_mem]
    constructor
    · rintro ⟨a, ha⟩
      exact ⟨a, ((hrowsmem a).1 ha).1, ((hrowsmem a).1 ha).2⟩
    · rintro ⟨a, ha, hp⟩
      exact ⟨a, (hrowsmem a).2 ⟨ha, hp⟩⟩
  have hanyf : ((db.holds.filter
        (fun h => h.clientId == cid && h.status == HoldStatus.ACTIVE)).any
        (fun r => r.type == HoldType.FRAUD_SUSPECT) = true) ↔
      ∃ h ∈ db.holds, h.clientId = cid ∧ h.status = .ACTIVE ∧
        h.type = .FRAUD_SUSPECT := by
    simp only [List.any_eq_true]
    constructor
    · rintro ⟨a, ha, ht⟩
      rcases (hrowsmem a).1 ha with ⟨hm, hc, hs⟩
      exact ⟨a, hm, hc, hs, by simpa using ht⟩
    · rintro ⟨a, hm, hc, hs, ht⟩
      exact ⟨a, (hrowsmem a).2 ⟨hm, hc, hs⟩, by simpa using ht⟩
  by_cases hb : (db.holds.filter
      (fun h => h.clientId == cid && h.status == HoldStatus.ACTIVE)).length > 0
  · have hact := hlen.1 hb
    by_cases hfr : ((db.holds.filter
        (fun h => h.clientId == cid && h.status == HoldStatus.ACTIVE)).any
        (fun r => r.type == HoldType.FRAUD_SUSPECT)) = true
    · refine ⟨?_, ?_, ?_, ?_, ?_⟩ <;>
        simp [check_hold, hb, hfr, hact, hanyf.1 hfr, hrowsmem]
    · have hnofr : ¬ ∃ h ∈ db.holds, h.clientId = cid ∧ h.status = .ACTIVE ∧
          h.type = .FRAUD_SUSPECT := fun hx => hfr (hanyf.2 hx)
      refine ⟨?_, ?_, ?_, ?_, ?_⟩ <;>
        simp [check_hold, hb, hfr, hact, hnofr, hrowsmem]
  · have hno : ¬ ∃ h ∈ db.holds, h.clientId = cid ∧ h.status = .ACTIVE :=
      fun hx => hb (hlen.2 hx)
    have hnofr : ¬ ∃ h ∈ db.holds, h.clientId = cid ∧ h.status = .ACTIVE ∧
        h.type = .FRAUD_SUSPECT :=
      fun ⟨h, hm, hc, hs, _⟩ => hno ⟨h, hm, hc, hs⟩
    refine ⟨?_, ?_, ?_, ?_, ?_⟩ <;>
      simp [check_hold, hb, hno, hnofr, hrowsmem]

/-- Claim C5 witness: on `sampleDB`, client 1 is blocked with kind FRAUD and
`sampleHold` among the active holds; client 2 is not blocked. -/
theorem claim5_witness :
    (check_hold sampleDB 1).kind = .FRAUD ∧
    (check_hold sampleDB 2).kind = .NONE :=
  ⟨(claim5_check_hold sampleDB 1).2.1.2
      ⟨sampleHold, by simp [sampleDB], rfl, rfl, rfl⟩,
   (claim5_check_hold sampleDB 2).2.2.2.1.2
      (by rintro ⟨h, hm, hc, _⟩; simp [sampleDB] at hm; rw [hm] at hc; exact absurd hc (by decide))⟩

/-- Claim C7: `list_holds` returns exactly the client's holds with the
filtered status (all of them under ALL), ordered by creation time descending
(`createdDesc`, i.e. each element's `createdAt` is at least the next one's). -/
theorem claim7_list_holds (db : DB) (cid : Nat) (stf : StatusFilter) :
    (list_holds db cid stf).Sorted createdDesc ∧
    List.Perm (list_holds db cid stf)
      (db.holds.filter (fun h => h.clientId == cid && statusMatches stf h)) ∧
    (∀ h, h ∈ list_holds db cid .ACTIVE ↔
      h ∈ db.holds ∧ h.clientId = cid ∧ h.status = .ACTIVE) ∧
    (∀ h, h ∈ list_holds db cid .RELEASED ↔
      h ∈ db.holds ∧ h.clientId = cid ∧ h.status = .RELEASED) ∧
    (∀ h, h ∈ list_holds db cid .ALL ↔ h ∈ db.holds ∧ h.clientId = cid) := by
  refine ⟨List.sorted_insertionSort createdDesc _,
    List.perm_insertionSort createdDesc _, ?_, ?_, ?_⟩ <;>
    intro h <;> simp [list_holds, List.mem_filter, statusMatches]

/-- Claim C7 witness: on `sampleDB`, `sampleHold` is listed for client 1
under the ACTIVE filter and under ALL, but not under RELEASED. -/
theorem claim7_witness :
    sampleHold ∈ list_holds sampleDB 1 .ACTIVE ∧
    sampleHold ∉ list_holds sampleDB 1 .RELEASED ∧
    sampleHold ∈ list_holds sampleDB 1 .ALL :=
  ⟨((claim7_list_holds sampleDB 1 .ACTIVE).2.2.1 sampleHold).2
      ⟨by simp [sampleDB], rfl, rfl⟩,
   fun hx => by
      have := ((claim7_list_holds sampleDB 1 .RELEASED).2.2.2.1 sampleHold).1 hx
      exact absurd this.2.2 (by decide),
   ((claim7_list_holds sampleDB 1 .ALL).2.2.2.2 sampleHold).2
      ⟨by simp [sampleDB], rfl⟩⟩

/-- `applyRelease` never changes a row's `holdId`. -/
lemma applyRelease_holdId (hid : Nat) (p : Principal) (reason : Option String)
    (now : Int) (h : Hold) :
    (applyRelease hid p reason now h).holdId = h.holdId := by
  unfold applyRelease
  split <;> rfl

/-- Searching the updated table by `hold_id` is searching the original table
by `hold_id` and then updating the row found. -/
lemma find?_map_applyRelease (l : List Hold) (hid : Nat) (p : Principal)
    (reason : Option String) (now : Int) :
    (l.map (applyRelease hid p reason now)).find? (fun h => h.holdId == hid) =
      (l.find? (fun h => h.holdId == hid)).map (applyRelease hid p reason now)
    := by
  rw [List.find?_map]
  have hp : ((fun h => h.holdId == hid) ∘ applyRelease hid p reason now) =
      (fun h : Hold => h.holdId == hid) := by
    funext h
    simp [Function.comp, applyRelease_holdId]
  rw [hp]

/-- With pairwise-distinct `hold_id`s (the primary key), the first row
matching `client_id AND hold_id` is also the first row matching `hold_id`
alone. -/
lemma find?_holdId_of_findOne (l : List Hold) (cid hid : Nat) (row : Hold)
    (hnd : (l.map Hold.holdId).Nodup)
    (hf : l.find? (fun h => h.clientId == cid && h.holdId == hid) = some row) :
    l.find? (fun h => h.holdId == hid) = some row := by
  induction l with
  | nil => simp at hf
  | cons x xs ih =>
    rw [List.map_cons, List.nodup_cons] at hnd
    by_cases hx : (x.clientId == cid && x.holdId == hid) = true
    · rw [@List.find?_cons_of_pos Hold
        (fun h => h.clientId == cid && h.holdId == hid) x xs hx] at hf
      injection hf with hf
      subst hf
      have hxh : (x.holdId == hid) = true := by
        simp only [Bool.and_eq_true] at hx
        exact hx.2
      rw [@List.find?_cons_of_pos Hold (fun h => h.holdId == hid) x xs hxh]
    · rw [@List.find?_cons_of_neg Hold
        (fun h => h.clientId == cid && h.holdId == hid) x xs hx] at hf
      by_cases hxh : (x.holdId == hid) = true
      · exfalso
        have hrow := List.find?_some hf
        have hmem := List.mem_of_find?_eq_some hf
        simp only [Bool.and_eq_true, beq_iff_eq] at hrow
        simp only [beq_iff_eq] at hxh
        apply hnd.1
        rw [hxh, ← hrow.2]
        exact List.mem_map.2 ⟨row, hmem, rfl⟩
      · rw [@List.find?_cons_of_neg Hold (fun h => h.holdId == hid) x xs hxh]
        exact ih hnd.2 hf

/-- Claim C3: under distinct hold ids (the table's primary key),
`release_hold` fails with NotFound when no hold matches the client and hold
ids, fails with Conflict when the matched hold is not ACTIVE, and otherwise
returns the hold updated to RELEASED with `releasedAt = now`,
`releasedBy = principal.sub` and `releaseReason = body.reason` (None when the
body is absent), storing exactly that update; the release body's `comment` is
accepted but never persisted — the outcome is identical for any comment. -/
theorem claim3_release_hold (db : DB) (cid hid : Nat)
    (body : Option ReleaseBody) (p : Principal) (now : Int)
    (hnd : (db.holds.map Hold.holdId).Nodup) :
    (findOne db cid hid = none →
      release_hold db cid hid body p now = .error .notFound) ∧
    (∀ row, findOne db cid hid = some row → row.status ≠ .ACTIVE →
      release_hold db cid hid body p now = .error .conflict) ∧
    (∀ row, findOne db cid hid = some row → row.status = .ACTIVE →
      release_hold db cid hid body p now =
        .ok ({ row with
                 status := .RELEASED
                 releasedAt := some now
                 releasedBy := some p.sub
                 releaseReason := body.bind ReleaseBody.reason },
             ⟨db.clients,
              db.holds.map
                (applyRelease hid p (body.bind ReleaseBody.reason) now)⟩)) ∧
    (∀ r c c', release_hold db cid hid (some ⟨r, c⟩) p now =
               release_hold db cid hid (some ⟨r, c'⟩) p now) := by
  refine ⟨?_, ?_, ?_, fun r c c' => rfl⟩
  · intro hf
    unfold release_hold
    rw [hf]
  · intro row hf hs
    unfold release_hold
    rw [hf]
    simp [hs]
  · intro row hf hs
    have hfind : db.holds.find?
        (fun h => h.clientId == cid && h.holdId == hid) = some row := hf
    have hrowid : (row.holdId == hid) = true := by
      have hpred := List.find?_some hfind
      simp only [Bool.and_eq_true] at hpred
      exact hpred.2
    have h1 : db.holds.find? (fun h => h.holdId == hid) = some row :=
      find?_holdId_of_findOne db.holds cid hid row hnd hfind
    have h2 := find?_map_applyRelease db.holds hid p
      (body.bind ReleaseBody.reason) now
    rw [h1] at h2
    unfold release_hold
    rw [hf]
    simp [hs, h2, applyRelease, hrowid]

/-- Claim C3 witness: releasing the ACTIVE `sampleHold` with a reason and a
comment stores the RELEASED row stamped with the releaser and the reason (the
comment appears nowhere). -/
theorem claim3_witness :
    release_hold sampleDB 1 10 (some ⟨some "resolved", some "note"⟩) pOps 7 =
      .ok ({ sampleHold with
               status := .RELEASED
               releasedAt := some 7
               releasedBy := some pOps.sub
               releaseReason :=
                 (some (ReleaseBody.mk (some "resolved") (some "note"))).bind
                   ReleaseBody.reason },
           ⟨sampleDB.clients,
            sampleDB.holds.map
              (applyRelease 10 pOps
                ((some (ReleaseBody.mk (some "resolved") (some "note"))).bind
                  ReleaseBody.reason) 7)⟩) :=
  (claim3_release_hold sampleDB 1 10
      (some ⟨some "resolved", some "note"⟩) pOps 7 (by decide)).2.2.1
    sampleHold rfl rfl

/-- Claim C4 counterexample: a reachable database (create `sampleHold`, then
release it with no request body) contains a hold whose status is RELEASED
while its `releaseReason` is null — the release endpoint stores
`body.reason if body else None` (app.py line 201), so the claimed
"non-null iff RELEASED" fails for `releaseReason`. -/
theorem claim4_counterexample :
    Reachable releasedDB ∧ releasedHold ∈ releasedDB.holds ∧
    releasedHold.status = .RELEASED ∧ releasedHold.releaseReason = none :=
  ⟨Reachable.release sampleDB 1 10 none pOps 7 releasedHold releasedDB
      (Reachable.create ⟨[1, 2], []⟩ 1 sampleBody "K" pOps 0 10 sampleHold
        sampleDB (Reachable.init [1, 2]) rfl)
      rfl,
   by simp [releasedDB], rfl, rfl⟩

/-- Claim C4 (amended): for every hold reachable through the public
operations, `releasedAt` and `releasedBy` are non-null iff the status is
RELEASED, and a non-null `releaseReason` implies RELEASED — but a RELEASED
hold may have a null `releaseReason`, when the release request carried no
reason. -/
theorem claim4_release_fields (db : DB) (hr : Reachable db) :
    ∀ h ∈ db.holds,
      (h.releasedAt ≠ none ↔ h.status = .RELEASED) ∧
      (h.releasedBy ≠ none ↔ h.status = .RELEASED) ∧
      (h.releaseReason ≠ none → h.status = .RELEASED) := by
  induction hr with
  | init clients => simp
  | create db cid body ik p now nid hnew db' hre heq ih =>
      unfold create_hold at heq
      split at heq
      · cases heq
      · split at heq
        · cases heq
        · split at heq
          · -- idempotent replay: state unchanged
            simp only [Except.ok.injEq, Prod.mk.injEq] at heq
            obtain ⟨-, heq2⟩ := heq
            subst heq2
            exact ih
          · split at heq
            · cases heq
            · -- fresh insert: the new row is ACTIVE with null release fields
              simp only [Except.ok.injEq, Prod.mk.injEq] at heq
              obtain ⟨-, heq2⟩ := heq
              subst heq2
              intro h hh
              simp only [List.mem_append, List.mem_singleton] at hh
              rcases hh with hh | rfl
              · exact ih h hh
              · simp [insertedHold]
  | release db cid hid body p now hrel db' hre heq ih =>
      unfold release_hold at heq
      split at heq
      · cases heq
      · split at heq
        · cases heq
        · split at heq
          · -- the UPDATE ran: rows matching the hold id get RELEASED with
            -- releasedAt/releasedBy set; other rows are untouched
            simp only [Except.ok.injEq, Prod.mk.injEq] at heq
            obtain ⟨-, heq2⟩ := heq
            subst heq2
            intro h hh
            simp only [List.mem_map] at hh
            obtain ⟨h0, hh0, rfl⟩ := hh
            unfold applyRelease
            split
            · simp
            · exact ih h0 hh0
          · cases heq

/-- Claim C4 witness: the amended invariant evaluated on the reachable state
`releasedDB` at the hold `releasedHold`. -/
theorem claim4_witness :
    (releasedHold.releasedAt ≠ none ↔ releasedHold.status = .RELEASED) ∧
    (releasedHold.releasedBy ≠ none ↔ releasedHold.status = .RELEASED) ∧
    (releasedHold.releaseReason ≠ none → releasedHold.status = .RELEASED) :=
  claim4_release_fields releasedDB
    (Reachable.release sampleDB 1 10 none pOps 7 releasedHold releasedDB
      (Reachable.create ⟨[1, 2], []⟩ 1 sampleBody "K" pOps 0 10 sampleHold
        sampleDB (Reachable.init [1, 2]) rfl)
      rfl)
    releasedHold (by simp [releasedDB])

end BlockingPayments
